import Mathlib

/-!
Verification of the Qt-Theme-Manager theme resolution and style synthesis
core, as a shallow embedding of the Python sources
(`qt_theme_manager/qt/stylesheet.py`, `detection.py`, `loader.py`,
`controller.py`, and `zebra_pattern_editor.py`).

Python dictionaries are modelled as association lists with string keys,
Python exceptions as `Except` results, and the file system / import system
as explicit environment records.  Machine-level concerns (Qt widget
handles, actual imports, file descriptors) are abstracted into those
environments; everything the theme pipeline computes on is embedded
directly from the source.
-/

namespace QtThemeManager

/-- Values manipulated by the theme pipeline: JSON-style documents restricted
to strings and string-keyed mappings, the two value shapes the theme code
reads and writes. -/
inductive PyVal where
  | str (s : String)
  | dict (entries : List (String × PyVal))
  deriving Inhabited

/-- Python truthiness for the modelled values: a string is truthy iff
non-empty, a dict iff non-empty. -/
def pyTruthy : PyVal → Bool
  | .str s => s != ""
  | .dict es => !es.isEmpty

/-- Truthiness of an optional value; Python `None` is falsy. -/
def pyTruthyOpt : Option PyVal → Bool
  | none => false
  | some v => pyTruthy v

/-- A Python dict with string keys. -/
abbrev PyDict := List (String × PyVal)

/-- Python `d.get(k, default)` on a dict: the first binding of `k`, or the
default. -/
def dictGet (d : PyDict) (k : String) (dflt : PyVal) : PyVal :=
  match d.lookup k with
  | some v => v
  | none => dflt

/-- Python `d[k] = v` on a dict: replace the binding of `k` if present,
otherwise append it. -/
def dictSet (d : PyDict) (k : String) (v : PyVal) : PyDict :=
  match d with
  | [] => [(k, v)]
  | (k0, v0) :: rest =>
      if k0 = k then (k0, v) :: rest else (k0, v0) :: dictSet rest k v

/-- Does the character list start with the given pattern? -/
def charsStartWith : List Char → List Char → Bool
  | _, [] => true
  | [], _ :: _ => false
  | c :: cs, d :: ds => c == d && charsStartWith cs ds

/-- Does the pattern occur at some position of the character list? -/
def charsContains (pat : List Char) : List Char → Bool
  | [] => charsStartWith [] pat
  | c :: rest => charsStartWith (c :: rest) pat || charsContains pat rest

/-- Python substring test `needle in s` for a non-empty needle: the needle
occurs at some position of `s`. -/
def pyStrContains (s needle : String) : Bool :=
  charsContains needle.data s.data

/-- Python `key in container`: key membership for dicts, substring test for
strings (the two value shapes of the model). -/
def pyContains (container : PyVal) (key : String) : Bool :=
  match container with
  | .dict es => (es.lookup key).isSome
  | .str s => pyStrContains s key

/-- Attribute-style `v.get(k, default)`: succeeds only when `v` is a dict;
on any other value Python raises `AttributeError`. -/
def pyGet (v : PyVal) (k : String) (dflt : PyVal) : Except String PyVal :=
  match v with
  | .dict es => .ok (dictGet es k dflt)
  | _ => .error "AttributeError: object has no attribute get"

/-- `StylesheetGenerator.validate_theme_config` (stylesheet.py:906-928):
returns false as soon as one of the required keys `name`, `display_name`,
`backgroundColor`, `textColor` is missing, true otherwise.  The membership
test is Python `in`, modelled by `pyContains`. -/
def validate_theme_config (theme_config : PyVal) : Bool :=
  ["name", "display_name", "backgroundColor", "textColor"].all
    (fun key => pyContains theme_config key)

end QtThemeManager

namespace QtThemeManager

/-! Hex colour round-trip (`zebra_pattern_editor.py`). -/

/-- Python `f"{n:02x}"`: lowercase hexadecimal, zero-padded to width 2.
For `n < 256` this is exactly two digits; larger values print unpadded. -/
def format02x (n : Nat) : String :=
  if n < 256 then ⟨[Nat.digitChar (n / 16), Nat.digitChar (n % 16)]⟩
  else ⟨Nat.toDigits 16 n⟩

/-- `ZebraPatternGenerator.rgb_to_hex` (zebra_pattern_editor.py:63-66):
`f"#{r:02x}{g:02x}{b:02x}"`. -/
def rgb_to_hex (r g b : Nat) : String :=
  "#" ++ format02x r ++ format02x g ++ format02x b

/-- Value of a lowercase/uppercase hexadecimal digit. -/
def hexDigitVal (c : Char) : Option Nat :=
  if '0' ≤ c ∧ c ≤ '9' then some (c.toNat - 48)
  else if 'a' ≤ c ∧ c ≤ 'f' then some (c.toNat - 87)
  else if 'A' ≤ c ∧ c ≤ 'F' then some (c.toNat - 55)
  else none

/-- Python `int(x, 16)` modelled on plain hexadecimal digit strings (the
shape produced by the colour formatter): fails on the empty string or any
non-hex character. -/
def pyIntHex (cs : List Char) : Option Nat :=
  match cs with
  | [] => none
  | _ =>
      cs.foldlM (fun acc c => (hexDigitVal c).map (fun d => 16 * acc + d)) 0

/-- Python slice `s[i:i+2]` on a list of characters: never fails, may be
shorter than 2 at the end. -/
def slice2 (cs : List Char) (i : Nat) : List Char :=
  (cs.drop i).take 2

/-- `ZebraPatternGenerator.hex_to_rgb` (zebra_pattern_editor.py:57-61):
strips leading `#` characters, then parses the three two-character slices at
offsets 0, 2, 4 as hexadecimal integers. -/
def hex_to_rgb (hex_color : String) : Option (Nat × Nat × Nat) := do
  let cs := hex_color.data.dropWhile (fun c => c = '#')
  let r ← pyIntHex (slice2 cs 0)
  let g ← pyIntHex (slice2 cs 2)
  let b ← pyIntHex (slice2 cs 4)
  pure (r, g, b)

end QtThemeManager

namespace QtThemeManager

/- Proof infrastructure for the round-trip and validation claims. -/

theorem list_lookup_isSome_iff_mem_keys {α β : Type} [DecidableEq α]
    (l : List (α × β)) (k : α) :
    (l.lookup k).isSome ↔ k ∈ l.map Prod.fst := by
  induction l with
  | nil => simp [List.lookup]
  | cons hd tl ih =>
      rcases hd with ⟨k0, v0⟩
      by_cases hk : k = k0
      · subst hk
        simp [List.lookup]
      · have hbeq : (k == k0) = false := beq_eq_false_iff_ne.mpr hk
        simp [List.lookup, hbeq, ih, hk]

/-- C2: `StylesheetGenerator.validate_theme_config` returns true on a theme
configuration dictionary iff all four required keys `name`, `display_name`
(the spec name `displayName`), `backgroundColor`, `textColor` are among its
keys; in particular it returns false on the empty dictionary and true on a
dictionary holding exactly those four keys. -/
theorem validate_theme_config_iff :
    (∀ es : PyDict,
      validate_theme_config (.dict es) = true ↔
        ("name" ∈ es.map Prod.fst ∧ "display_name" ∈ es.map Prod.fst ∧
         "backgroundColor" ∈ es.map Prod.fst ∧ "textColor" ∈ es.map Prod.fst))
    ∧ validate_theme_config (.dict []) = false
    ∧ validate_theme_config (.dict
        [("name", .str "light"), ("display_name", .str "Light"),
         ("backgroundColor", .str "#ffffff"),
         ("textColor", .str "#000000")]) = true := by
  refine ⟨?_, by decide, by decide⟩
  intro es
  simp only [validate_theme_config, List.all_cons, List.all_nil,
    Bool.and_eq_true, Bool.and_true, pyContains,
    list_lookup_isSome_iff_mem_keys]

theorem digitChar_lt16_ne_hash (a : Nat) (h : a < 16) :
    Nat.digitChar a ≠ '#' := by
  interval_cases a <;> decide

theorem hexDigitVal_digitChar (a : Nat) (h : a < 16) :
    hexDigitVal (Nat.digitChar a) = some a := by
  interval_cases a <;> decide

theorem pyIntHex_two_digits (a b : Nat) (ha : a < 16) (hb : b < 16) :
    pyIntHex [Nat.digitChar a, Nat.digitChar b] = some (16 * a + b) := by
  simp [pyIntHex, List.foldlM, hexDigitVal_digitChar a ha,
    hexDigitVal_digitChar b hb, Option.map, Option.bind]

/-- C6: converting any byte triple to a hex colour string and parsing it
back recovers exactly the triple:
`hex_to_rgb (rgb_to_hex r g b) = some (r, g, b)` for all
`r, g, b ∈ [0, 255]`. -/
theorem hex_to_rgb_rgb_to_hex (r g b : Nat)
    (hr : r ≤ 255) (hg : g ≤ 255) (hb : b ≤ 255) :
    hex_to_rgb (rgb_to_hex r g b) = some (r, g, b) := by
  have hr2 : r < 256 := Nat.lt_succ_of_le hr
  have hg2 : g < 256 := Nat.lt_succ_of_le hg
  have hb2 : b < 256 := Nat.lt_succ_of_le hb
  have hrd : r / 16 < 16 := Nat.div_lt_of_lt_mul hr2
  have hgd : g / 16 < 16 := Nat.div_lt_of_lt_mul hg2
  have hbd : b / 16 < 16 := Nat.div_lt_of_lt_mul hb2
  have hrm : r % 16 < 16 := Nat.mod_lt _ (by norm_num)
  have hgm : g % 16 < 16 := Nat.mod_lt _ (by norm_num)
  have hbm : b % 16 < 16 := Nat.mod_lt _ (by norm_num)
  have hdata : (rgb_to_hex r g b).data =
      '#' :: [Nat.digitChar (r / 16), Nat.digitChar (r % 16),
              Nat.digitChar (g / 16), Nat.digitChar (g % 16),
              Nat.digitChar (b / 16), Nat.digitChar (b % 16)] := by
    simp [rgb_to_hex, format02x, if_pos hr2, if_pos hg2, if_pos hb2,
      String.data_append]
  rw [hex_to_rgb, hdata]
  rw [List.dropWhile_cons_of_pos (by simp), List.dropWhile_cons_of_neg
    (by simpa using digitChar_lt16_ne_hash _ hrd)]
  simp only [slice2, List.drop, List.take]
  rw [pyIntHex_two_digits _ _ hrd hrm, pyIntHex_two_digits _ _ hgd hgm,
    pyIntHex_two_digits _ _ hbd hbm]
  simp [Nat.div_add_mod]

/-- Closed witness for the round-trip theorem at a concrete triple. -/
theorem hex_to_rgb_rgb_to_hex_witness :
    hex_to_rgb (rgb_to_hex 26 26 26) = some (26, 26, 26) :=
  hex_to_rgb_rgb_to_hex 26 26 26 (by decide) (by decide) (by decide)

end QtThemeManager

namespace QtThemeManager

/-! Version validation (`qt_theme_manager/qt/detection.py:185-215`). -/

/-- Digit run of Python `int`: decimal digits optionally separated by single
underscores; an underscore must be followed by a digit. -/
def pyDigitsAux : Nat → List Char → Option Nat
  | acc, [] => some acc
  | acc, c :: rest =>
      if c.isDigit then pyDigitsAux (10 * acc + (c.toNat - 48)) rest
      else if c = '_' then
        match rest with
        | d :: _ => if d.isDigit then pyDigitsAux acc rest else none
        | [] => none
      else none

/-- Unsigned part of Python `int`: must start with a digit. -/
def pyIntCore (cs : List Char) : Option Nat :=
  match cs with
  | [] => none
  | c :: _ => if c.isDigit then pyDigitsAux 0 cs else none

/-- Python `int(s)` on ASCII input: surrounding whitespace stripped, an
optional sign, then digits (with underscore separators); `none` models the
`ValueError` raised on anything else. -/
def pyInt (s : String) : Option Int :=
  match s.trim.data with
  | '+' :: rest => (pyIntCore rest).map Int.ofNat
  | '-' :: rest => (pyIntCore rest).map (fun n => -(n : Int))
  | cs => (pyIntCore cs).map Int.ofNat

/-- `[int(x) for x in version.split(".")]`: the whole comprehension fails if
any component does. -/
def parseVersion (version : String) : Option (List Int) :=
  (version.splitOn ".").mapM pyInt

/-- Pad a part list with zeros up to length `n`
(`parts.extend([0] * (max_len - len(parts)))`). -/
def padVersion (n : Nat) (parts : List Int) : List Int :=
  parts ++ List.replicate (n - parts.length) 0

/-- Python `list.__lt__`: lexicographic comparison. -/
def pyListLt : List Int → List Int → Bool
  | [], [] => false
  | [], _ :: _ => true
  | _ :: _, [] => false
  | a :: as, b :: bs => if a < b then true else if b < a then false else pyListLt as bs

/-- `QtDetector._validate_version` (detection.py:185-215), expressed as the
predicate "raises `QtVersionError`".  Both version strings are parsed inside
a `try` whose handler catches only `ValueError` (the parse failure) and
passes; `QtVersionError` is not a `ValueError`, so the outcome of the comparison
escapes the handler. -/
def validate_version_raises (current_version required_version : String) : Bool :=
  match parseVersion current_version, parseVersion required_version with
  | some current_parts, some required_parts =>
      let max_len := max current_parts.length required_parts.length
      pyListLt (padVersion max_len current_parts) (padVersion max_len required_parts)
  | _, _ => false

theorem pyListLt_iff_lex (a b : List Int) :
    pyListLt a b = true ↔ List.Lex (· < ·) a b := by
  induction a generalizing b with
  | nil =>
      cases b with
      | nil => simp [pyListLt]
      | cons y ys => simp [pyListLt]; exact List.Lex.nil
  | cons x xs ih =>
      cases b with
      | nil =>
          simp only [pyListLt, Bool.false_eq_true, false_iff]
          intro h; cases h
      | cons y ys =>
          simp only [pyListLt]
          by_cases hxy : x < y
          · simp only [if_pos hxy, true_iff]
            exact List.Lex.rel hxy
          · by_cases hyx : y < x
            · simp only [if_neg hxy, if_pos hyx, Bool.false_eq_true, false_iff]
              intro h
              cases h with
              | cons h => exact absurd hyx (lt_irrefl x)
              | rel h => exact absurd h hxy
            · have hxe : x = y := le_antisymm (not_lt.mp hyx) (not_lt.mp hxy)
              subst hxe
              rw [if_neg hxy, if_neg hyx, ih]
              constructor
              · exact fun h => List.Lex.cons h
              · intro h
                cases h with
                | cons h => exact h
                | rel h => exact absurd h (lt_irrefl x)

/-- C7: version validation raises iff both version strings parse as
dot-separated integer sequences and, after zero-padding to equal length, the
current version is lexicographically (element-wise) below the required one;
by the same equivalence, any unparsable version string makes validation pass
(fail open). -/
theorem validate_version_raises_iff (current_version required_version : String) :
    validate_version_raises current_version required_version = true ↔
      ∃ current_parts required_parts,
        parseVersion current_version = some current_parts ∧
        parseVersion required_version = some required_parts ∧
        List.Lex (· < ·)
          (padVersion (max current_parts.length required_parts.length) current_parts)
          (padVersion (max current_parts.length required_parts.length) required_parts) := by
  unfold validate_version_raises
  cases hc : parseVersion current_version with
  | none =>
      simp only [Bool.false_eq_true, false_iff]
      rintro ⟨cp, rp, hcp, -, -⟩
      exact Option.noConfusion hcp
  | some cp =>
      cases hr : parseVersion required_version with
      | none =>
          simp only [Bool.false_eq_true, false_iff]
          rintro ⟨cp2, rp2, -, hrp, -⟩
          exact Option.noConfusion hrp
      | some rp =>
          simp only [pyListLt_iff_lex]
          constructor
          · intro h
            exact ⟨cp, rp, rfl, rfl, h⟩
          · rintro ⟨cp2, rp2, hcp, hrp, h⟩
            cases hcp
            cases hrp
            exact h

end QtThemeManager

namespace QtThemeManager

/-! Qt framework detection (`qt_theme_manager/qt/detection.py`). -/

/-- The modules dictionary cached on a successful probe.  The real dict also
carries the class objects of the binding (`QObject`, `QApplication`, ...), which
are opaque runtime handles; the version string is the only inspectable
datum.  The dict is non-empty by construction, hence truthy. -/
structure QtModules where
  version : String
  deriving DecidableEq, Repr

/-- Import environment: for each candidate binding name, `none` when
importing it raises `ImportError`, otherwise the version string the binding
reports. -/
structure QtEnv where
  importVersion : String → Option String

/-- `QtDetector.MIN_VERSIONS` (detection.py:44). -/
def MIN_VERSIONS : List (String × String) :=
  [("PySide6", "6.0.0"), ("PyQt6", "6.2.0"), ("PyQt5", "5.15.0")]

/-- Common body of `_try_pyside6` / `_try_pyqt6` / `_try_pyqt5`
(detection.py:111-183): import the binding (or fail with `ImportError`),
validate its version (`QtVersionError` if too old), and return the
framework name with its modules dict. -/
def try_framework (env : QtEnv) (name min_version : String) :
    Except String (String × QtModules) :=
  match env.importVersion name with
  | none => .error "ImportError"
  | some v =>
      if validate_version_raises v min_version then .error "QtVersionError"
      else .ok (name, ⟨v⟩)

def try_pyside6 (env : QtEnv) : Except String (String × QtModules) :=
  try_framework env "PySide6" "6.0.0"

def try_pyqt6 (env : QtEnv) : Except String (String × QtModules) :=
  try_framework env "PyQt6" "6.2.0"

def try_pyqt5 (env : QtEnv) : Except String (String × QtModules) :=
  try_framework env "PyQt5" "5.15.0"

/-- `QtDetector.__init__` state (detection.py:46-49). -/
structure DetectorState where
  cached_framework : Option String
  cached_modules : Option QtModules
  detection_attempted : Bool
  deriving DecidableEq, Repr

def detectorInit : DetectorState :=
  { cached_framework := none, cached_modules := none, detection_attempted := false }

/-- `QtDetector._cache_result` (detection.py:217-221). -/
def cache_result (st : DetectorState) (framework : String) (modules : QtModules) :
    DetectorState :=
  { st with
    cached_framework := some framework
    cached_modules := some modules
    detection_attempted := true }

/-- `QtDetector.clear_cache` (detection.py:231-235). -/
def clear_cache (st : DetectorState) : DetectorState :=
  { cached_framework := none, cached_modules := none, detection_attempted := false }

/-- Truthiness of the cached framework name (`self._cached_framework and ...`). -/
def pyTruthyStrOpt : Option String → Bool
  | none => false
  | some s => s != ""

/-- Result of one `detect_qt_framework` call: the returned (or raised)
value, the detector state afterwards, and the list of bindings probed, in
order. -/
structure DetectOutcome where
  result : Except String (String × QtModules)
  state : DetectorState
  probed : List String
  deriving Repr

/-- `QtDetector.detect_qt_framework` (detection.py:51-109): return the
cached pair when present (and not forced), otherwise probe PySide6, PyQt6,
PyQt5 in that order, caching and returning the first success; raise
`QtFrameworkNotFoundError` when all three fail. -/
def detect_qt_framework (env : QtEnv) (st : DetectorState) (force_redetect : Bool) :
    DetectOutcome :=
  if !force_redetect && pyTruthyStrOpt st.cached_framework && st.cached_modules.isSome then
    { result := .ok (st.cached_framework.getD "", st.cached_modules.getD ⟨""⟩)
      state := st
      probed := [] }
  else
    match try_pyside6 env with
    | .ok (fw, m) =>
        { result := .ok (fw, m), state := cache_result st fw m, probed := ["PySide6"] }
    | .error _ =>
        match try_pyqt6 env with
        | .ok (fw, m) =>
            { result := .ok (fw, m), state := cache_result st fw m
              probed := ["PySide6", "PyQt6"] }
        | .error _ =>
            match try_pyqt5 env with
            | .ok (fw, m) =>
                { result := .ok (fw, m), state := cache_result st fw m
                  probed := ["PySide6", "PyQt6", "PyQt5"] }
            | .error _ =>
                { result := .error "QtFrameworkNotFoundError"
                  state := { st with detection_attempted := true }
                  probed := ["PySide6", "PyQt6", "PyQt5"] }

/-- `QtDetector.is_qt_available` (detection.py:237-248). -/
def is_qt_available (env : QtEnv) (st : DetectorState) : Bool × DetectorState :=
  let d := detect_qt_framework env st false
  match d.result with
  | .ok _ => (true, d.state)
  | .error _ => (false, d.state)

/-- A candidate resolves when its import succeeds and its version is
acceptable. -/
def resolve_candidate (env : QtEnv) (c : String × String) : Option (String × QtModules) :=
  (try_framework env c.1 c.2).toOption

/-- The fixed candidate priority order with the minimum version of each. -/
def candidate_order : List (String × String) := MIN_VERSIONS

/-- First resolving candidate of a candidate list, scanned in order. -/
def find_first_resolving (env : QtEnv) : List (String × String) → Option (String × QtModules)
  | [] => none
  | c :: rest =>
      match resolve_candidate env c with
      | some r => some r
      | none => find_first_resolving env rest

/-- The first candidate of the priority order that resolves. -/
def first_resolving (env : QtEnv) : Option (String × QtModules) :=
  find_first_resolving env candidate_order

/-- Names of the candidates a fresh probe run tries: every failing candidate
up to and including the first that resolves (all of them when none does). -/
def probe_trace (env : QtEnv) : List String :=
  (candidate_order.take
      ((candidate_order.takeWhile
          (fun c => (resolve_candidate env c).isNone)).length + 1)).map Prod.fst

theorem try_framework_ok_name (env : QtEnv) (name minv fw : String) (m : QtModules)
    (h : try_framework env name minv = .ok (fw, m)) : fw = name := by
  unfold try_framework at h
  cases henv : env.importVersion name with
  | none =>
      rw [henv] at h
      exact Except.noConfusion h
  | some v =>
      rw [henv] at h
      dsimp only at h
      by_cases hv : validate_version_raises v minv = true
      · rw [if_pos hv] at h
        exact Except.noConfusion h
      · rw [if_neg hv] at h
        injection h with h1
        exact (congrArg Prod.fst h1).symm

/-- C4: a successful `detect_qt_framework` call caches its result, and a
second call without `force_redetect` returns the identical cached pair
while probing nothing; a forced call always runs the probe sequence, whose
trace follows the fixed priority order PySide6, PyQt6, PyQt5; and whenever
any probing happens, the outcome is the first candidate of that order that
resolves with an acceptable version (an error when none does). -/
theorem detect_cache_and_priority (env : QtEnv) (st : DetectorState) (force : Bool) :
    (∀ fw m, (detect_qt_framework env st force).result = .ok (fw, m) →
        (detect_qt_framework env st force).state.cached_framework = some fw ∧
        (detect_qt_framework env st force).state.cached_modules = some m ∧
        detect_qt_framework env (detect_qt_framework env st force).state false =
          { result := .ok (fw, m)
            state := (detect_qt_framework env st force).state
            probed := [] })
    ∧ (force = true → (detect_qt_framework env st force).probed = probe_trace env)
    ∧ ((detect_qt_framework env st force).probed ≠ [] →
        (detect_qt_framework env st force).result =
          (match first_resolving env with
           | some r => .ok r
           | none => .error "QtFrameworkNotFoundError")) := by
  by_cases hcond :
      (!force && pyTruthyStrOpt st.cached_framework && st.cached_modules.isSome) = true
  · -- cache hit: the call returns the cached pair and changes nothing
    obtain ⟨⟨hf, htr⟩, hm⟩ :
        ((!force) = true ∧ pyTruthyStrOpt st.cached_framework = true) ∧
          st.cached_modules.isSome = true := by
      simpa [Bool.and_eq_true] using hcond
    rcases hfw : st.cached_framework with _ | s
    · rw [hfw] at htr; simp [pyTruthyStrOpt] at htr
    rcases hmm : st.cached_modules with _ | mm
    · rw [hmm] at hm; simp at hm
    have hs : (s != "") = true := by
      rw [hfw] at htr; simpa [pyTruthyStrOpt] using htr
    have hdet : detect_qt_framework env st force =
        { result := .ok (s, mm), state := st, probed := [] } := by
      rw [detect_qt_framework, if_pos hcond, hfw, hmm]
      rfl
    refine ⟨?_, ?_, ?_⟩
    · intro fw m h
      rw [hdet] at h
      simp only [Except.ok.injEq, Prod.mk.injEq] at h
      obtain ⟨rfl, rfl⟩ := h
      rw [hdet]
      refine ⟨hfw, hmm, ?_⟩
      rw [detect_qt_framework,
        if_pos (by simp [hfw, hmm, pyTruthyStrOpt, hs]), hfw, hmm]
      rfl
    · intro hforce
      rw [hforce] at hf
      simp at hf
    · intro hp
      rw [hdet] at hp
      simp at hp
  · -- probe path: the cached pair is absent or the call was forced
    have hsecond : ∀ (fw : String) (m : QtModules), (fw != "") = true →
        detect_qt_framework env (cache_result st fw m) false =
          { result := .ok (fw, m), state := cache_result st fw m, probed := [] } := by
      intro fw m hfw
      rw [detect_qt_framework, if_pos (by simp [cache_result, pyTruthyStrOpt, hfw])]
      simp [cache_result]
    cases htry1 : try_framework env "PySide6" "6.0.0" with
    | ok p =>
        obtain ⟨fw1, m1⟩ := p
        obtain rfl : fw1 = "PySide6" := try_framework_ok_name env _ _ _ _ htry1
        have hdet : detect_qt_framework env st force =
            { result := .ok ("PySide6", m1), state := cache_result st "PySide6" m1
              probed := ["PySide6"] } := by
          rw [detect_qt_framework, if_neg hcond]
          simp only [try_pyside6, try_pyqt6, try_pyqt5]
          rw [htry1]
        refine ⟨?_, ?_, ?_⟩
        · intro fw m h
          rw [hdet] at h
          simp only [Except.ok.injEq, Prod.mk.injEq] at h
          obtain ⟨rfl, rfl⟩ := h
          rw [hdet]
          exact ⟨by simp [cache_result], by simp [cache_result],
            hsecond "PySide6" m1 (by decide)⟩
        · intro hforce
          rw [hdet]
          simp [probe_trace, candidate_order, MIN_VERSIONS, resolve_candidate, Except.toOption, htry1]
        · intro hp
          rw [hdet]
          simp [first_resolving, find_first_resolving, candidate_order, MIN_VERSIONS,
            resolve_candidate, Except.toOption, htry1]
    | error e1 =>
        cases htry2 : try_framework env "PyQt6" "6.2.0" with
        | ok p =>
            obtain ⟨fw2, m2⟩ := p
            obtain rfl : fw2 = "PyQt6" := try_framework_ok_name env _ _ _ _ htry2
            have hdet : detect_qt_framework env st force =
                { result := .ok ("PyQt6", m2), state := cache_result st "PyQt6" m2
                  probed := ["PySide6", "PyQt6"] } := by
              rw [detect_qt_framework, if_neg hcond]
              simp only [try_pyside6, try_pyqt6, try_pyqt5]
              rw [htry1, htry2]
            refine ⟨?_, ?_, ?_⟩
            · intro fw m h
              rw [hdet] at h
              simp only [Except.ok.injEq, Prod.mk.injEq] at h
              obtain ⟨rfl, rfl⟩ := h
              rw [hdet]
              exact ⟨by simp [cache_result], by simp [cache_result],
                hsecond "PyQt6" m2 (by decide)⟩
            · intro hforce
              rw [hdet]
              simp [probe_trace, candidate_order, MIN_VERSIONS, resolve_candidate, Except.toOption,
                htry1, htry2]
            · intro hp
              rw [hdet]
              simp [first_resolving, find_first_resolving, candidate_order, MIN_VERSIONS,
                resolve_candidate, Except.toOption, htry1, htry2]
        | error e2 =>
            cases htry3 : try_framework env "PyQt5" "5.15.0" with
            | ok p =>
                obtain ⟨fw3, m3⟩ := p
                obtain rfl : fw3 = "PyQt5" := try_framework_ok_name env _ _ _ _ htry3
                have hdet : detect_qt_framework env st force =
                    { result := .ok ("PyQt5", m3), state := cache_result st "PyQt5" m3
                      probed := ["PySide6", "PyQt6", "PyQt5"] } := by
                  rw [detect_qt_framework, if_neg hcond]
                  simp only [try_pyside6, try_pyqt6, try_pyqt5]
                  rw [htry1, htry2, htry3]
                refine ⟨?_, ?_, ?_⟩
                · intro fw m h
                  rw [hdet] at h
                  simp only [Except.ok.injEq, Prod.mk.injEq] at h
                  obtain ⟨rfl, rfl⟩ := h
                  rw [hdet]
                  exact ⟨by simp [cache_result], by simp [cache_result],
                    hsecond "PyQt5" m3 (by decide)⟩
                · intro hforce
                  rw [hdet]
                  simp [probe_trace, candidate_order, MIN_VERSIONS, resolve_candidate, Except.toOption,
                    htry1, htry2, htry3]
                · intro hp
                  rw [hdet]
                  simp [first_resolving, find_first_resolving, candidate_order,
                    MIN_VERSIONS, resolve_candidate, Except.toOption, htry1, htry2, htry3]
            | error e3 =>
                have hdet : detect_qt_framework env st force =
                    { result := .error "QtFrameworkNotFoundError"
                      state := { st with detection_attempted := true }
                      probed := ["PySide6", "PyQt6", "PyQt5"] } := by
                  rw [detect_qt_framework, if_neg hcond]
                  simp only [try_pyside6, try_pyqt6, try_pyqt5]
                  rw [htry1, htry2, htry3]
                refine ⟨?_, ?_, ?_⟩
                · intro fw m h
                  rw [hdet] at h
                  simp at h
                · intro hforce
                  rw [hdet]
                  simp [probe_trace, candidate_order, MIN_VERSIONS, resolve_candidate, Except.toOption,
                    htry1, htry2, htry3]
                · intro hp
                  rw [hdet]
                  simp [first_resolving, find_first_resolving, candidate_order,
                    MIN_VERSIONS, resolve_candidate, Except.toOption, htry1, htry2, htry3]

/-- Closed witness for the detection theorem: a forced probe in an
environment where only PyQt6 (version 6.3.1) imports runs the probe trace. -/
theorem detect_cache_and_priority_witness :
    (detect_qt_framework
        ⟨fun n => if n = "PyQt6" then some "6.3.1" else none⟩
        detectorInit true).probed =
      probe_trace ⟨fun n => if n = "PyQt6" then some "6.3.1" else none⟩ :=
  (detect_cache_and_priority
      ⟨fun n => if n = "PyQt6" then some "6.3.1" else none⟩
      detectorInit true).2.1 rfl

/-- States a detector can be in after any sequence of construction,
detection, and cache-clear operations (the getters do not change state). -/
inductive DetectorReachable : DetectorState → Prop
  | init : DetectorReachable detectorInit
  | detect (env : QtEnv) (force : Bool) {st : DetectorState} :
      DetectorReachable st →
      DetectorReachable (detect_qt_framework env st force).state
  | clear {st : DetectorState} :
      DetectorReachable st → DetectorReachable (clear_cache st)

/-- C10: in every reachable detector state, the cached framework name is
set iff the cached modules dict is set, and when set the framework name is
one of exactly "PySide6", "PyQt6", "PyQt5". -/
theorem detector_cache_invariant (st : DetectorState) (h : DetectorReachable st) :
    (st.cached_framework.isSome ↔ st.cached_modules.isSome)
    ∧ (∀ fw, st.cached_framework = some fw →
        fw = "PySide6" ∨ fw = "PyQt6" ∨ fw = "PyQt5") := by
  induction h with
  | init => simp [detectorInit]
  | clear hr ih => simp [clear_cache]
  | detect env force hr ih =>
      rename_i st0
      by_cases hcond : (!force && pyTruthyStrOpt st0.cached_framework &&
          st0.cached_modules.isSome) = true
      · rw [detect_qt_framework, if_pos hcond]
        exact ih
      · rw [detect_qt_framework, if_neg hcond]
        simp only [try_pyside6, try_pyqt6, try_pyqt5]
        cases htry1 : try_framework env "PySide6" "6.0.0" with
        | ok p =>
            obtain ⟨fw1, m1⟩ := p
            obtain rfl := try_framework_ok_name env _ _ _ _ htry1
            refine ⟨by simp [cache_result], ?_⟩
            intro fw hfw
            simp only [cache_result, Option.some.injEq] at hfw
            exact Or.inl hfw.symm
        | error e1 =>
            cases htry2 : try_framework env "PyQt6" "6.2.0" with
            | ok p =>
                obtain ⟨fw2, m2⟩ := p
                obtain rfl := try_framework_ok_name env _ _ _ _ htry2
                refine ⟨by simp [cache_result], ?_⟩
                intro fw hfw
                simp only [cache_result, Option.some.injEq] at hfw
                exact Or.inr (Or.inl hfw.symm)
            | error e2 =>
                cases htry3 : try_framework env "PyQt5" "5.15.0" with
                | ok p =>
                    obtain ⟨fw3, m3⟩ := p
                    obtain rfl := try_framework_ok_name env _ _ _ _ htry3
                    refine ⟨by simp [cache_result], ?_⟩
                    intro fw hfw
                    simp only [cache_result, Option.some.injEq] at hfw
                    exact Or.inr (Or.inr hfw.symm)
                | error e3 =>
                    exact ih

/-- Closed witness for the detector invariant at the freshly constructed
detector. -/
theorem detector_cache_invariant_witness :
    (detectorInit.cached_framework.isSome ↔ detectorInit.cached_modules.isSome)
    ∧ (∀ fw, detectorInit.cached_framework = some fw →
        fw = "PySide6" ∨ fw = "PyQt6" ∨ fw = "PyQt5") :=
  detector_cache_invariant detectorInit DetectorReachable.init

end QtThemeManager

namespace QtThemeManager

/-! Stylesheet synthesis (`qt_theme_manager/qt/stylesheet.py`). -/

mutual

/-- Python `repr` of a modelled value, as produced when a non-string value
is interpolated into an f-string (modelled without escaping of quotes
embedded in the strings themselves). -/
def pyReprVal : PyVal → String
  | .str s => "\x27" ++ s ++ "\x27"
  | .dict es => "\x7b" ++ pyReprEntries es ++ "\x7d"

def pyReprEntries : List (String × PyVal) → String
  | [] => ""
  | [(k, v)] => "\x27" ++ k ++ "\x27: " ++ pyReprVal v
  | (k, v) :: rest =>
      "\x27" ++ k ++ "\x27: " ++ pyReprVal v ++ ", " ++ pyReprEntries rest

end

/-- Python `str` / f-string conversion of a modelled value. -/
def pyStr : PyVal → String
  | .str s => s
  | .dict es => pyReprVal (.dict es)

/-- Fetch of a component sub-tree: `sub = theme_config.get(key, {})`
followed by the first attribute access `sub.get(...)`, which raises
`AttributeError` unless the fetched value is a dict. -/
def getSubDict (cfg : PyDict) (k : String) : Except String PyDict :=
  match dictGet cfg k (.dict []) with
  | .dict es => .ok es
  | _ => .error "AttributeError: object has no attribute get"

/-- `StylesheetGenerator._generate_base_styles` (stylesheet.py:83-100). -/
def generate_base_styles (theme_config : PyDict) : String :=
  let bg_color := pyStr (dictGet theme_config "backgroundColor" (.str "#ffffff"))
  let text_color := pyStr (dictGet theme_config "textColor" (.str "#000000"))
  s!"
/* Base Widget Styles */
QWidget \x7b
    background-color: {bg_color};
    color: {text_color};
    font-family: \x27Segoe UI\x27, \x27Meiryo\x27, sans-serif;
    font-size: 14px;
\x7d

QMainWindow \x7b
    background-color: {bg_color};
    color: {text_color};
\x7d"

/-- `StylesheetGenerator._generate_button_styles` (stylesheet.py:102-141). -/
def generate_button_styles (theme_config : PyDict) : Except String String := do
  let button_config ← getSubDict theme_config "button"
  let bg := pyStr (dictGet button_config "background" (.str "#f0f0f0"))
  let text := pyStr (dictGet button_config "text" (.str "#000000"))
  let hover := pyStr (dictGet button_config "hover" (.str "#e0e0e0"))
  let pressed := pyStr (dictGet button_config "pressed" (.str "#d0d0d0"))
  let border := pyStr (dictGet button_config "border" (.str "#cccccc"))
  pure s!"
/* Button Styles */
QPushButton \x7b
    background-color: {bg};
    color: {text};
    border: 1px solid {border};
    border-radius: 4px;
    padding: 6px 12px;
    min-height: 20px;
\x7d

QPushButton:hover \x7b
    background-color: {hover};
\x7d

QPushButton:pressed \x7b
    background-color: {pressed};
\x7d

QPushButton:disabled \x7b
    background-color: #e0e0e0;
    color: #888888;
    border-color: #d0d0d0;
\x7d

QPushButton[class=\"current_theme\"] \x7b
    background-color: {hover};
    border: 2px solid {text};
    font-weight: bold;
\x7d"

/-- `StylesheetGenerator._generate_input_styles` (stylesheet.py:143-190). -/
def generate_input_styles (theme_config : PyDict) : Except String String := do
  let input_config ← getSubDict theme_config "input"
  let bg := pyStr (dictGet input_config "background" (.str "#ffffff"))
  let text := pyStr (dictGet input_config "text" (.str "#000000"))
  let border := pyStr (dictGet input_config "border" (.str "#cccccc"))
  let focus := pyStr (dictGet input_config "focus" (.str "#0078d4"))
  let placeholder := pyStr (dictGet input_config "placeholder" (.str "#888888"))
  pure s!"
/* Input Field Styles */
QLineEdit, QTextEdit, QPlainTextEdit \x7b
    background-color: {bg};
    color: {text};
    border: 1px solid {border};
    border-radius: 4px;
    padding: 6px;
    selection-background-color: {focus};
\x7d

QLineEdit:focus, QTextEdit:focus, QPlainTextEdit:focus \x7b
    border-color: {focus};
    outline: none;
\x7d

QLineEdit::placeholder \x7b
    color: {placeholder};
\x7d

QComboBox \x7b
    background-color: {bg};
    color: {text};
    border: 1px solid {border};
    border-radius: 4px;
    padding: 6px;
\x7d

QComboBox:focus \x7b
    border-color: {focus};
\x7d

QComboBox::drop-down \x7b
    subcontrol-origin: padding;
    subcontrol-position: top right;
    width: 20px;
    border-left: 1px solid {border};
\x7d"

/-- `StylesheetGenerator._generate_panel_styles` (stylesheet.py:192-241).
The zebra alternate colour defaults to the panel background value itself. -/
def generate_panel_styles (theme_config : PyDict) : Except String String := do
  let panel_config ← getSubDict theme_config "panel"
  let bg_v := dictGet panel_config "background" (.str "#f8f8f8")
  let bg := pyStr bg_v
  let border := pyStr (dictGet panel_config "border" (.str "#ddd"))
  let header_config ← getSubDict panel_config "header"
  let header_bg := pyStr (dictGet header_config "background" (.str "#e2e8f0"))
  let header_text := pyStr (dictGet header_config "text" (.str "#2d3748"))
  let header_border := pyStr (dictGet header_config "border" (.str "#cbd5e0"))
  let zebra_config ← getSubDict panel_config "zebra"
  let zebra_bg := pyStr (dictGet zebra_config "alternate" bg_v)
  pure s!"
/* Panel and GroupBox Styles */
QGroupBox \x7b
    background-color: {bg};
    border: 1px solid {border};
    border-radius: 4px;
    margin-top: 10px;
    padding-top: 10px;
\x7d

QGroupBox::title \x7b
    subcontrol-origin: margin;
    subcontrol-position: top left;
    padding: 0 5px;
    background-color: {header_bg};
    color: {header_text};
    border: 1px solid {header_border};
    border-radius: 4px;
\x7d

QFrame \x7b
    background-color: {bg};
    border: 1px solid {border};
    border-radius: 4px;
\x7d

QListWidget, QTreeWidget, QTableWidget \x7b
    background-color: {bg};
    border: 1px solid {border};
    border-radius: 4px;
    alternate-background-color: {zebra_bg};
\x7d"

/-- `StylesheetGenerator._generate_toolbar_styles` (stylesheet.py:243-283). -/
def generate_toolbar_styles (theme_config : PyDict) : Except String String := do
  let toolbar_config ← getSubDict theme_config "toolbar"
  let bg := pyStr (dictGet toolbar_config "background" (.str "#f7fafc"))
  let text := pyStr (dictGet toolbar_config "text" (.str "#2d3748"))
  let border := pyStr (dictGet toolbar_config "border" (.str "#e2e8f0"))
  let button_config ← getSubDict toolbar_config "button"
  let btn_bg := pyStr (dictGet button_config "background" (.str "#ffffff"))
  let btn_text := pyStr (dictGet button_config "text" (.str "#2d3748"))
  let btn_hover := pyStr (dictGet button_config "hover" (.str "#0078d4"))
  let btn_pressed := pyStr (dictGet button_config "pressed" (.str "#e2e8f0"))
  pure s!"
/* Toolbar Styles */
QToolBar \x7b
    background-color: {bg};
    color: {text};
    border: 1px solid {border};
    border-radius: 4px;
    spacing: 2px;
\x7d

QToolButton \x7b
    background-color: {btn_bg};
    color: {btn_text};
    border: 1px solid {border};
    border-radius: 4px;
    padding: 4px;
    margin: 1px;
\x7d

QToolButton:hover \x7b
    background-color: {btn_hover};
    color: white;
\x7d

QToolButton:pressed \x7b
    background-color: {btn_pressed};
\x7d"

/-- `StylesheetGenerator._generate_status_styles` (stylesheet.py:285-303). -/
def generate_status_styles (theme_config : PyDict) : Except String String := do
  let status_config ← getSubDict theme_config "status"
  let bg := pyStr (dictGet status_config "background" (.str "#f7fafc"))
  let text := pyStr (dictGet status_config "text" (.str "#4a5568"))
  let border := pyStr (dictGet status_config "border" (.str "#e2e8f0"))
  pure s!"
/* Status Bar Styles */
QStatusBar \x7b
    background-color: {bg};
    color: {text};
    border-top: 1px solid {border};
\x7d

QStatusBar::item \x7b
    border: none;
\x7d"

/-- `StylesheetGenerator._generate_text_styles` (stylesheet.py:305-353). -/
def generate_text_styles (theme_config : PyDict) : Except String String := do
  let text_config ← getSubDict theme_config "text"
  let primary := pyStr (dictGet text_config "primary" (.str "#2d3748"))
  let secondary := pyStr (dictGet text_config "secondary" (.str "#4a5568"))
  let muted := pyStr (dictGet text_config "muted" (.str "#718096"))
  let heading := pyStr (dictGet text_config "heading" (.str "#1a202c"))
  let link := pyStr (dictGet text_config "link" (.str "#0078d4"))
  let success := pyStr (dictGet text_config "success" (.str "#38a169"))
  let warning := pyStr (dictGet text_config "warning" (.str "#d69e2e"))
  let error := pyStr (dictGet text_config "error" (.str "#e53e3e"))
  pure s!"
/* Text Styles */
QLabel \x7b
    color: {primary};
\x7d

QLabel[class=\"secondary\"] \x7b
    color: {secondary};
\x7d

QLabel[class=\"muted\"] \x7b
    color: {muted};
\x7d

QLabel[class=\"heading\"] \x7b
    color: {heading};
    font-weight: bold;
    font-size: 16px;
\x7d

QLabel[class=\"link\"] \x7b
    color: {link};
    text-decoration: underline;
\x7d

QLabel[class=\"success\"] \x7b
    color: {success};
\x7d

QLabel[class=\"warning\"] \x7b
    color: {warning};
\x7d

QLabel[class=\"error\"] \x7b
    color: {error};
\x7d"

/-- `StylesheetGenerator._generate_basic_qss` (stylesheet.py:48-60):
collect the seven basic fragments in order, drop falsy (empty) ones, and
join with blank lines. -/
def generate_basic_qss (theme_config : PyDict) : Except String String := do
  let p1 := generate_base_styles theme_config
  let p2 ← generate_button_styles theme_config
  let p3 ← generate_input_styles theme_config
  let p4 ← generate_panel_styles theme_config
  let p5 ← generate_toolbar_styles theme_config
  let p6 ← generate_status_styles theme_config
  let p7 ← generate_text_styles theme_config
  pure (String.intercalate "\n\n"
    (([p1, p2, p3, p4, p5, p6, p7]).filter (fun s => s != "")))

/-- The base64 checkmark icon constant `CHECKMARK_SVG` (stylesheet.py:10-16). -/
def CHECKMARK_SVG : String :=
  "PHN2ZyB3aWR0aD0iMTIiIGhlaWdodD0iMTIiIHZpZXdCb3g9IjAgMCAxMiAxMiIg" ++
  "ZmlsbD0ibm9uZSIgeG1sbnM9Imh0dHA6Ly93d3cudzMub3JnLzIwMDAvc3ZnIj4K" ++
  "PHBhdGggZD0iTTEwIDNMNC41IDguNUwyIDYiIHN0cm9rZT0id2hpdGUiIHN0cm9r" ++
  "ZS13aWR0aD0iMTIiIHN0cm9rZS1saW5lY2FwPSJyb3VuZCIgc3Ryb2tlLWxpbmVqb2lu" ++
  "PSJyb3VuZCIvPgo8L3N2Zz4K"

/-- `StylesheetGenerator._generate_enhanced_button_styles`
(stylesheet.py:355-413). -/
def generate_enhanced_button_styles (theme_config : PyDict) :
    Except String String := do
  let button_config ← getSubDict theme_config "button"
  let normal_color := pyStr (dictGet button_config "normal"
    (dictGet theme_config "primaryColor" (.str "#4a90e2")))
  let hover_color := pyStr (dictGet button_config "hover" (.str "#5ba0f2"))
  let pressed_color := pyStr (dictGet button_config "pressed" (.str "#357abd"))
  let disabled_color := pyStr (dictGet button_config "disabled" (.str "#a0a0a0"))
  let border_color := pyStr (dictGet button_config "border" (.str "#2c5aa0"))
  let normal_text := "#ffffff"
  let hover_text := "#ffffff"
  let pressed_text := "#ffffff"
  let disabled_text := "#ffffff"
  pure s!"
/* Enhanced Button Styles */
QPushButton \x7b
    background-color: {normal_color};
    color: {normal_text};
    border: 1px solid {border_color};
    padding: 6px 12px;
    border-radius: 4px;
    font-weight: 500;
    min-height: 16px;
\x7d

QPushButton:hover \x7b
    background-color: {hover_color};
    color: {hover_text};
    border-color: {hover_color};
\x7d

QPushButton:pressed \x7b
    background-color: {pressed_color};
    color: {pressed_text};
    border-color: {pressed_color};
\x7d

QPushButton:disabled \x7b
    background-color: {disabled_color};
    color: {disabled_text};
    border-color: {disabled_color};
\x7d

QPushButton[class=\"primary\"] \x7b
    background-color: {normal_color};
    color: {normal_text};
    font-weight: bold;
    border: 2px solid {border_color};
\x7d

QPushButton[class=\"primary\"]:hover \x7b
    background-color: {hover_color};
    color: {hover_text};
\x7d"

/-- `StylesheetGenerator._generate_enhanced_input_styles`
(stylesheet.py:415-491). -/
def generate_enhanced_input_styles (theme_config : PyDict) :
    Except String String := do
  let input_config ← getSubDict theme_config "input"
  let bg_color_v := dictGet theme_config "backgroundColor" (.str "#ffffff")
  let text_color_v := dictGet theme_config "textColor" (.str "#000000")
  let text_color := pyStr text_color_v
  let normal_bg := pyStr (dictGet input_config "background" bg_color_v)
  let normal_text := pyStr (dictGet input_config "text" text_color_v)
  let border_color := pyStr (dictGet input_config "border" (.str "#cccccc"))
  let focus_color := pyStr (dictGet input_config "focus" (.str "#0078d4"))
  let placeholder_color := pyStr (dictGet input_config "placeholder" (.str "#888888"))
  let error_color := pyStr (dictGet input_config "error" (.str "#e53e3e"))
  let success_color := pyStr (dictGet input_config "success" (.str "#38a169"))
  pure s!"
/* Enhanced Input Field Styles */
QLineEdit, QTextEdit, QPlainTextEdit \x7b
    background-color: {normal_bg};
    color: {normal_text};
    border: 2px solid {border_color};
    border-radius: 6px;
    padding: 8px 12px;
    font-size: 14px;
    selection-background-color: {focus_color};
\x7d

QLineEdit:focus, QTextEdit:focus, QPlainTextEdit:focus \x7b
    border-color: {focus_color};
    outline: none;
    box-shadow: 0 0 0 2px {focus_color}33;
\x7d

QLineEdit::placeholder \x7b
    color: {placeholder_color};
    font-style: italic;
\x7d

QLineEdit[class=\"error\"] \x7b
    border-color: {error_color};
    background-color: {error_color}11;
\x7d

QLineEdit[class=\"success\"] \x7b
    border-color: {success_color};
    background-color: {success_color}11;
\x7d

QComboBox \x7b
    background-color: {normal_bg};
    color: {normal_text};
    border: 2px solid {border_color};
    border-radius: 6px;
    padding: 8px 12px;
    min-width: 100px;
\x7d

QComboBox:focus \x7b
    border-color: {focus_color};
    box-shadow: 0 0 0 2px {focus_color}33;
\x7d

QComboBox::drop-down \x7b
    subcontrol-origin: padding;
    subcontrol-position: top right;
    width: 24px;
    border-left: 1px solid {border_color};
    border-top-right-radius: 4px;
    border-bottom-right-radius: 4px;
\x7d

QComboBox::down-arrow \x7b
    image: none;
    border-left: 4px solid transparent;
    border-right: 4px solid transparent;
    border-top: 4px solid {text_color};
    margin-right: 8px;
\x7d"

/-- `StylesheetGenerator._generate_enhanced_panel_styles`
(stylesheet.py:493-567). -/
def generate_enhanced_panel_styles (theme_config : PyDict) :
    Except String String := do
  let panel_config ← getSubDict theme_config "panel"
  let bg_color_v := dictGet theme_config "backgroundColor" (.str "#ffffff")
  let text_color := pyStr (dictGet theme_config "textColor" (.str "#000000"))
  let bg_v := dictGet panel_config "background" bg_color_v
  let bg := pyStr bg_v
  let border := pyStr (dictGet panel_config "border" (.str "#ddd"))
  let header_config ← getSubDict panel_config "header"
  let header_bg := pyStr (dictGet header_config "background" (.str "#e2e8f0"))
  let header_text := pyStr (dictGet header_config "text" (.str "#2d3748"))
  let header_border := pyStr (dictGet header_config "border" (.str "#cbd5e0"))
  let zebra_config ← getSubDict panel_config "zebra"
  let zebra_bg := pyStr (dictGet zebra_config "alternate" bg_v)
  pure s!"
/* Enhanced Panel and GroupBox Styles */
QGroupBox \x7b
    background-color: {bg};
    border: 2px solid {border};
    border-radius: 8px;
    margin-top: 12px;
    padding-top: 12px;
    font-weight: bold;
    color: {text_color};
\x7d

QGroupBox::title \x7b
    subcontrol-origin: margin;
    subcontrol-position: top left;
    padding: 4px 8px;
    background-color: {header_bg};
    color: {header_text};
    border: 1px solid {header_border};
    border-radius: 6px;
    margin-left: 8px;
\x7d

QFrame \x7b
    background-color: {bg};
    border: 2px solid {border};
    border-radius: 8px;
\x7d

QFrame[frameShape=\"4\"] \x7b
    border: 1px solid {border};
    border-radius: 0px;
\x7d

QListWidget, QTreeWidget, QTableWidget \x7b
    background-color: {bg};
    border: 2px solid {border};
    border-radius: 8px;
    alternate-background-color: {zebra_bg};
    gridline-color: {border};
    outline: none;
\x7d

QListWidget::item, QTreeWidget::item, QTableWidget::item \x7b
    padding: 6px;
    border: none;
    border-radius: 4px;
\x7d

QListWidget::item:selected, QTreeWidget::item:selected, QTableWidget::item:selected \x7b
    background-color: {header_bg};
    color: {header_text};
\x7d

QListWidget::item:hover, QTreeWidget::item:hover, QTableWidget::item:hover \x7b
    background-color: {header_bg}66;
\x7d"

/-- `StylesheetGenerator._generate_enhanced_menu_styles`
(stylesheet.py:569-622). -/
def generate_enhanced_menu_styles (theme_config : PyDict) :
    Except String String := do
  let menu_config ← getSubDict theme_config "menu"
  let bg_color_v := dictGet theme_config "backgroundColor" (.str "#ffffff")
  let text_color_v := dictGet theme_config "textColor" (.str "#000000")
  let bg := pyStr (dictGet menu_config "background" bg_color_v)
  let text := pyStr (dictGet menu_config "text" text_color_v)
  let border := pyStr (dictGet menu_config "border" (.str "#cccccc"))
  let hover := pyStr (dictGet menu_config "hover" (.str "#e2e8f0"))
  let separator := pyStr (dictGet menu_config "separator" (.str "#e2e8f0"))
  pure s!"
/* Enhanced Menu Styles */
QMenuBar \x7b
    background-color: {bg};
    color: {text};
    border-bottom: 1px solid {border};
    padding: 4px;
\x7d

QMenuBar::item \x7b
    background-color: transparent;
    padding: 6px 12px;
    border-radius: 4px;
\x7d

QMenuBar::item:selected \x7b
    background-color: {hover};
\x7d

QMenu \x7b
    background-color: {bg};
    color: {text};
    border: 1px solid {border};
    border-radius: 6px;
    padding: 4px 0px;
\x7d

QMenu::item \x7b
    padding: 8px 24px;
    border-radius: 4px;
    margin: 1px 4px;
\x7d

QMenu::item:selected \x7b
    background-color: {hover};
\x7d

QMenu::separator \x7b
    height: 1px;
    background-color: {separator};
    margin: 4px 8px;
\x7d"

/-- `StylesheetGenerator._generate_enhanced_progress_styles`
(stylesheet.py:624-654). -/
def generate_enhanced_progress_styles (theme_config : PyDict) :
    Except String String := do
  let progress_config ← getSubDict theme_config "progress"
  let text_color_v := dictGet theme_config "textColor" (.str "#000000")
  let bg := pyStr (dictGet progress_config "background" (.str "#e2e8f0"))
  let bar := pyStr (dictGet progress_config "bar" (.str "#4a90e2"))
  let text := pyStr (dictGet progress_config "text" text_color_v)
  let border := pyStr (dictGet progress_config "border" (.str "#cbd5e0"))
  pure s!"
/* Enhanced Progress Bar Styles */
QProgressBar \x7b
    background-color: {bg};
    color: {text};
    border: 2px solid {border};
    border-radius: 6px;
    text-align: center;
    font-weight: bold;
\x7d

QProgressBar::chunk \x7b
    background-color: {bar};
    border-radius: 4px;
    margin: 2px;
\x7d

QProgressBar[textVisible=\"false\"] \x7b
    min-height: 20px;
\x7d"

/-- `StylesheetGenerator._generate_enhanced_scrollbar_styles`
(stylesheet.py:656-711). -/
def generate_enhanced_scrollbar_styles (theme_config : PyDict) :
    Except String String := do
  let scrollbar_config ← getSubDict theme_config "scrollbar"
  let bg := pyStr (dictGet scrollbar_config "background" (.str "#f7fafc"))
  let handle := pyStr (dictGet scrollbar_config "handle" (.str "#cbd5e0"))
  let handle_hover := pyStr (dictGet scrollbar_config "handle_hover" (.str "#a0aec0"))
  pure s!"
/* Enhanced Scrollbar Styles */
QScrollBar:vertical \x7b
    background-color: {bg};
    width: 12px;
    border-radius: 6px;
    margin: 0px;
\x7d

QScrollBar::handle:vertical \x7b
    background-color: {handle};
    border-radius: 6px;
    min-height: 20px;
    margin: 2px;
\x7d

QScrollBar::handle:vertical:hover \x7b
    background-color: {handle_hover};
\x7d

QScrollBar::add-line:vertical, QScrollBar::sub-line:vertical \x7b
    height: 0px;
\x7d

QScrollBar:horizontal \x7b
    background-color: {bg};
    height: 12px;
    border-radius: 6px;
    margin: 0px;
\x7d

QScrollBar::handle:horizontal \x7b
    background-color: {handle};
    border-radius: 6px;
    min-width: 20px;
    margin: 2px;
\x7d

QScrollBar::handle:horizontal:hover \x7b
    background-color: {handle_hover};
\x7d

QScrollBar::add-line:horizontal, QScrollBar::sub-line:horizontal \x7b
    width: 0px;
\x7d"

/-- `StylesheetGenerator._generate_enhanced_list_styles`
(stylesheet.py:713-765). -/
def generate_enhanced_list_styles (theme_config : PyDict) :
    Except String String := do
  let list_config ← getSubDict theme_config "list"
  let bg_color_v := dictGet theme_config "backgroundColor" (.str "#ffffff")
  let text_color_v := dictGet theme_config "textColor" (.str "#000000")
  let bg := pyStr (dictGet list_config "background" bg_color_v)
  let text := pyStr (dictGet list_config "text" text_color_v)
  let border := pyStr (dictGet list_config "border" (.str "#e2e8f0"))
  let selection := pyStr (dictGet list_config "selection" (.str "#4a90e2"))
  let selection_text := pyStr (dictGet list_config "selection_text" (.str "#ffffff"))
  pure s!"
/* Enhanced List and Tree Styles */
QListView, QTreeView \x7b
    background-color: {bg};
    color: {text};
    border: 2px solid {border};
    border-radius: 8px;
    outline: none;
    alternate-background-color: {bg}ee;
\x7d

QListView::item, QTreeView::item \x7b
    padding: 8px;
    border: none;
    border-radius: 4px;
    margin: 1px 4px;
\x7d

QListView::item:selected, QTreeView::item:selected \x7b
    background-color: {selection};
    color: {selection_text};
\x7d

QListView::item:hover, QTreeView::item:hover \x7b
    background-color: {selection}66;
    color: {text};
\x7d

QTreeView::branch \x7b
    background-color: transparent;
\x7d

QTreeView::branch:has-children:!has-siblings:closed,
QTreeView::branch:closed:has-children:has-siblings \x7b
    image: url(data:image/svg+xml;base64,PHN2ZyB3aWR0aD0iMTIiIGhlaWdodD0iMTIiIHZpZXdCb3g9IjAgMCAxMiAxMiIgZmlsbD0ibm9uZSIgeG1sbnM9Imh0dHA6Ly93d3cudzMub3JnLzIwMDAvc3ZnIj4KPHBhdGggZD0iTTQgNkw5IDZMOSA3TDQgN1oiIGZpbGw9IiM0NTQ1NDUiLz4KPC9zdmc+);
\x7d

QTreeView::branch:open:has-children:!has-siblings,
QTreeView::branch:open:has-children:has-siblings \x7b
    image: url(data:image/svg+xml;base64,PHN2ZyB3aWR0aD0iMTIiIGhlaWdodD0iMTIiIHZpZXdCb3g9IjAgMCAxMiAxMiIgZmlsbD0ibm9uZSIgeG1sbnM9Imh0dHA6Ly93d3cudzMub3JnLzIwMDAvc3ZnIj4KPHBhdGggZD0iTTQgN0g5VjZINFY3WiIgZmlsbD0iIzQ1NDU0NSIvPgo8L3N2Zz4=);
\x7d"

/-- `StylesheetGenerator._generate_enhanced_tab_styles`
(stylesheet.py:767-816). -/
def generate_enhanced_tab_styles (theme_config : PyDict) :
    Except String String := do
  let tab_config ← getSubDict theme_config "tab"
  let bg_color_v := dictGet theme_config "backgroundColor" (.str "#ffffff")
  let text_color_v := dictGet theme_config "textColor" (.str "#000000")
  let bg := pyStr (dictGet tab_config "background" bg_color_v)
  let text := pyStr (dictGet tab_config "text" text_color_v)
  let selected := pyStr (dictGet tab_config "selected" (.str "#4a90e2"))
  let selected_text := pyStr (dictGet tab_config "selected_text" (.str "#ffffff"))
  let border := pyStr (dictGet tab_config "border" (.str "#cccccc"))
  pure s!"
/* Enhanced Tab Styles */
QTabWidget::pane \x7b
    background-color: {bg};
    border: 1px solid {border};
    border-radius: 4px;
    margin-top: 2px;
\x7d

QTabWidget::tab-bar \x7b
    alignment: left;
\x7d

QTabBar::tab \x7b
    background-color: #e0e0e0;
    color: {text};
    border: 1px solid {border};
    padding: 8px 16px;
    margin-right: 2px;
    border-top-left-radius: 4px;
    border-top-right-radius: 4px;
    font-weight: 500;
\x7d

QTabBar::tab:selected \x7b
    background-color: {selected};
    color: {selected_text};
    border-bottom-color: {bg};
\x7d

QTabBar::tab:hover \x7b
    background-color: {selected}66;
    color: {text};
\x7d

QTabBar::tab:!selected \x7b
    margin-top: 2px;
\x7d"

/-- `StylesheetGenerator._generate_checkbox_radio_styles`
(stylesheet.py:818-878). -/
def generate_checkbox_radio_styles (theme_config : PyDict) :
    Except String String := do
  let button_config ← getSubDict theme_config "button"
  let bg_color_v := dictGet theme_config "backgroundColor" (.str "#ffffff")
  let text_color_v := dictGet theme_config "textColor" (.str "#000000")
  let normal_color := pyStr (dictGet button_config "normal"
    (dictGet theme_config "primaryColor" (.str "#4a90e2")))
  let bg := pyStr bg_color_v
  let text := pyStr text_color_v
  let svg := CHECKMARK_SVG
  pure s!"
/* Enhanced Checkbox and Radio Styles */
QCheckBox, QRadioButton \x7b
    color: {text};
    font-weight: 500;
    spacing: 8px;
\x7d

QCheckBox::indicator, QRadioButton::indicator \x7b
    width: 16px;
    height: 16px;
    border: 2px solid #cccccc;
    background-color: {bg};
\x7d

QCheckBox::indicator \x7b
    border-radius: 3px;
\x7d

QRadioButton::indicator \x7b
    border-radius: 8px;
\x7d

QCheckBox::indicator:checked, QRadioButton::indicator:checked \x7b
    background-color: {normal_color};
    border-color: {normal_color};
\x7d

QCheckBox::indicator:checked \x7b
    image: url(data:image/svg+xml;base64,{svg});
\x7d

QRadioButton::indicator:checked \x7b
    border: 3px solid {bg};
    background-color: {normal_color};
\x7d

QCheckBox::indicator:hover, QRadioButton::indicator:hover \x7b
    border-color: {normal_color};
\x7d

QCheckBox:disabled, QRadioButton:disabled \x7b
    color: #999999;
\x7d

QCheckBox::indicator:disabled, QRadioButton::indicator:disabled \x7b
    border-color: #cccccc;
    background-color: #f5f5f5;
\x7d"

/-- `StylesheetGenerator._generate_advanced_qss` (stylesheet.py:62-81):
the thirteen advanced fragments in their fixed order. -/
def generate_advanced_qss (theme_config : PyDict) : Except String String := do
  let p1 := generate_base_styles theme_config
  let p2 ← generate_enhanced_button_styles theme_config
  let p3 ← generate_enhanced_input_styles theme_config
  let p4 ← generate_enhanced_panel_styles theme_config
  let p5 ← generate_enhanced_menu_styles theme_config
  let p6 ← generate_enhanced_progress_styles theme_config
  let p7 ← generate_enhanced_scrollbar_styles theme_config
  let p8 ← generate_enhanced_list_styles theme_config
  let p9 ← generate_enhanced_tab_styles theme_config
  let p10 ← generate_toolbar_styles theme_config
  let p11 ← generate_status_styles theme_config
  let p12 ← generate_text_styles theme_config
  let p13 ← generate_checkbox_radio_styles theme_config
  pure (String.intercalate "\n\n"
    (([p1, p2, p3, p4, p5, p6, p7, p8, p9, p10, p11, p12, p13]).filter
      (fun s => s != "")))

/-- `StylesheetGenerator.generate_qss` (stylesheet.py:36-46): dispatch on
`advanced_mode`. -/
def generate_qss (advanced_mode : Bool) (theme_config : PyDict) :
    Except String String :=
  if advanced_mode then generate_advanced_qss theme_config
  else generate_basic_qss theme_config

/-- Success test for a modelled computation. -/
def isOkB {α : Type} : Except String α → Bool
  | .ok _ => true
  | .error _ => false

/-- The hypothesis of the no-raise property: every component sub-tree the
fragment generators fetch is, when present, itself a mapping (the absent
ones default to `{}`). -/
def subtrees_ok (cfg : PyDict) : Bool :=
  isOkB (getSubDict cfg "button") && isOkB (getSubDict cfg "input") &&
  isOkB (getSubDict cfg "panel") && isOkB (getSubDict cfg "toolbar") &&
  isOkB (getSubDict cfg "status") && isOkB (getSubDict cfg "text") &&
  isOkB (getSubDict cfg "menu") && isOkB (getSubDict cfg "progress") &&
  isOkB (getSubDict cfg "scrollbar") && isOkB (getSubDict cfg "list") &&
  isOkB (getSubDict cfg "tab") &&
  (match getSubDict cfg "panel" with
   | .ok p => isOkB (getSubDict p "header") && isOkB (getSubDict p "zebra")
   | .error _ => true) &&
  (match getSubDict cfg "toolbar" with
   | .ok t => isOkB (getSubDict t "button")
   | .error _ => true)

theorem isOkB_exists {α : Type} (e : Except String α) (h : isOkB e = true) :
    ∃ x, e = .ok x := by
  cases e with
  | ok x => exact ⟨x, rfl⟩
  | error msg => simp [isOkB] at h

theorem except_bind_ok {α β : Type} (a : α) (f : α → Except String β) :
    ((Except.ok a : Except String α) >>= f) = f a := rfl

theorem except_bind_error {α β : Type} (msg : String) (f : α → Except String β) :
    ((Except.error msg : Except String α) >>= f) = Except.error msg := rfl

theorem except_pure_eq_ok {α : Type} (a : α) :
    (pure a : Except String α) = Except.ok a := rfl

/-- C8: for every theme configuration whose present sub-trees are mappings,
stylesheet generation (basic and advanced mode alike) never raises; and on
the empty configuration it still succeeds, substituting the documented
defaults — in particular the `#ffffff` background of the base fragment and
`#000000` text colour appear in the output. -/
theorem generate_qss_total_and_defaults (cfg : PyDict) (advanced_mode : Bool)
    (h : subtrees_ok cfg = true) :
    isOkB (generate_qss advanced_mode cfg) = true
    ∧ isOkB (generate_qss advanced_mode []) = true
    ∧ pyStrContains ((generate_qss advanced_mode []).toOption.getD "")
        "background-color: #ffffff" = true
    ∧ pyStrContains ((generate_qss advanced_mode []).toOption.getD "")
        "color: #000000" = true := by
  simp only [subtrees_ok, Bool.and_eq_true] at h
  obtain ⟨⟨⟨⟨⟨⟨⟨⟨⟨⟨⟨⟨hb, hi⟩, hp⟩, ht⟩, hs⟩, htx⟩, hm⟩, hpr⟩, hsc⟩, hl⟩,
    htab⟩, hph⟩, htb⟩ := h
  obtain ⟨bes, hbe⟩ := isOkB_exists _ hb
  obtain ⟨ies, hie⟩ := isOkB_exists _ hi
  obtain ⟨pes, hpe⟩ := isOkB_exists _ hp
  obtain ⟨tes, hte⟩ := isOkB_exists _ ht
  obtain ⟨ses, hse⟩ := isOkB_exists _ hs
  obtain ⟨xes, hxe⟩ := isOkB_exists _ htx
  obtain ⟨mes, hme⟩ := isOkB_exists _ hm
  obtain ⟨pres, hpre⟩ := isOkB_exists _ hpr
  obtain ⟨sces, hsce⟩ := isOkB_exists _ hsc
  obtain ⟨les, hle⟩ := isOkB_exists _ hl
  obtain ⟨taes, htae⟩ := isOkB_exists _ htab
  rw [hpe] at hph
  rw [Bool.and_eq_true] at hph
  obtain ⟨hes, hhe⟩ := isOkB_exists _ hph.1
  obtain ⟨zes, hze⟩ := isOkB_exists _ hph.2
  rw [hte] at htb
  obtain ⟨tbes, htbe⟩ := isOkB_exists _ htb
  refine ⟨?_, ?_, ?_, ?_⟩
  · cases advanced_mode with
    | false =>
        simp [generate_qss, generate_basic_qss, generate_button_styles,
          generate_input_styles, generate_panel_styles, generate_toolbar_styles,
          generate_status_styles, generate_text_styles, hbe, hie, hpe, hhe, hze,
          hte, htbe, hse, hxe, except_bind_ok, except_pure_eq_ok, isOkB]
    | true =>
        simp [generate_qss, generate_advanced_qss,
          generate_enhanced_button_styles, generate_enhanced_input_styles,
          generate_enhanced_panel_styles, generate_enhanced_menu_styles,
          generate_enhanced_progress_styles, generate_enhanced_scrollbar_styles,
          generate_enhanced_list_styles, generate_enhanced_tab_styles,
          generate_toolbar_styles, generate_status_styles, generate_text_styles,
          generate_checkbox_radio_styles, hbe, hie, hpe, hhe, hze, hte, htbe,
          hse, hxe, hme, hpre, hsce, hle, htae, except_bind_ok,
          except_pure_eq_ok, isOkB]
  · cases advanced_mode <;> decide
  · cases advanced_mode <;> decide
  · cases advanced_mode <;> decide

/-- Closed witness for the no-raise property at a configuration carrying an
explicit button sub-tree, in advanced mode. -/
theorem generate_qss_total_and_defaults_witness :
    isOkB (generate_qss true [("button", PyVal.dict [("normal", PyVal.str "#123456")])])
      = true :=
  (generate_qss_total_and_defaults
    [("button", PyVal.dict [("normal", PyVal.str "#123456")])] true (by decide)).1

end QtThemeManager

namespace QtThemeManager

/-! Theme loader (`qt_theme_manager/qt/loader.py`) and theme controller
(`qt_theme_manager/qt/controller.py`). -/

/-- File-system environment of one controller: the outcome `json.load`
would produce for the configuration file (`error` for a missing file or
unparsable JSON, `ok none` for a JSON `null` document, `ok (some v)` for a
parsed document), whether writing the settings file back succeeds, and
whether creating directories and writing an exported QSS file succeeds. -/
structure FsEnv where
  loadResult : Except String (Option PyVal)
  saveOk : Bool
  exportWriteOk : Bool

/-- `ThemeLoader.load_settings` (loader.py:30-53), as a function of the
cache `_settings` of the loader, returning the result and the new cache.  A JSON
`null` document assigns `None` to the cache and then raises the
empty-document `ValueError`. -/
def load_settings (env : FsEnv) (settings : Option PyVal) :
    Except String PyVal × Option PyVal :=
  match env.loadResult with
  | .error e => (.error e, settings)
  | .ok none => (.error "ValueError: Theme configuration file is empty", none)
  | .ok (some doc) => (.ok doc, some doc)

/-- The read of `available_themes` once `_settings` is populated
(loader.py:65-69): an `AttributeError` escapes if the cached document is
not a dict; a non-dict `available_themes` value falls back to `{}`. -/
def available_from (settings : Option PyVal) : Except String PyDict :=
  match settings with
  | some v =>
      match pyGet v "available_themes" (.dict []) with
      | .error e => .error e
      | .ok (.dict es) => .ok es
      | .ok _ => .ok []
  | none => .ok []

/-- `ThemeLoader.get_available_themes` (loader.py:55-69). -/
def get_available_themes (env : FsEnv) (settings : Option PyVal) :
    Except String PyDict × Option PyVal :=
  match settings with
  | none =>
      match load_settings env none with
      | (.error e, st1) => (.error e, st1)
      | (.ok _, st1) => (available_from st1, st1)
  | some v => (available_from (some v), some v)

/-- The read of `current_theme` once `_settings` is populated
(loader.py:81-85): a non-string value falls back to `"light"`. -/
def current_from (settings : Option PyVal) : Except String String :=
  match settings with
  | some v =>
      match pyGet v "current_theme" (.str "light") with
      | .error e => .error e
      | .ok (.str s) => .ok s
      | .ok _ => .ok "light"
  | none => .ok "light"

/-- `ThemeLoader.get_current_theme` (loader.py:71-85). -/
def get_current_theme (env : FsEnv) (settings : Option PyVal) :
    Except String String × Option PyVal :=
  match settings with
  | none =>
      match load_settings env none with
      | (.error e, st1) => (.error e, st1)
      | (.ok _, st1) => (current_from st1, st1)
  | some v => (current_from (some v), some v)

/-- `ThemeLoader.get_theme_config` (loader.py:87-98):
`available_themes.get(theme_name)`. -/
def get_theme_config (env : FsEnv) (settings : Option PyVal) (theme_name : String) :
    Except String (Option PyVal) × Option PyVal :=
  match get_available_themes env settings with
  | (.error e, st1) => (.error e, st1)
  | (.ok themes, st1) => (.ok (themes.lookup theme_name), st1)

/-- `ThemeLoader.save_settings` (loader.py:100-118): on success the cache
is updated to the saved document; on any I/O failure an `OSError` is
raised and the cache keeps its current (possibly already mutated) value. -/
def save_settings (env : FsEnv) (new_settings : PyVal) (settings : Option PyVal) :
    Except String Unit × Option PyVal :=
  if env.saveOk then (.ok (), some new_settings)
  else (.error "OSError: Failed to save theme settings", settings)

/-- The tail of `update_current_theme` once `_settings` is populated
(loader.py:138-147): reject an unknown theme, mutate the two keys in place
(so the cache is updated even if the subsequent save fails), then persist. -/
def update_current_theme_loaded (env : FsEnv) (v : PyVal) (theme_name : String) :
    Except String Unit × Option PyVal :=
  match available_from (some v) with
  | .error e => (.error e, some v)
  | .ok themes =>
      if (themes.lookup theme_name).isSome then
        match v with
        | .dict es =>
            let es1 := dictSet es "current_theme" (.str theme_name)
            let es2 := dictSet es1 "last_selected_theme" (.str theme_name)
            save_settings env (.dict es2) (some (.dict es2))
        | _ => (.error "TypeError: object does not support item assignment", some v)
      else
        (.error "ValueError: theme not found in available themes", some v)

/-- `ThemeLoader.update_current_theme` (loader.py:128-147). -/
def update_current_theme (env : FsEnv) (settings : Option PyVal) (theme_name : String) :
    Except String Unit × Option PyVal :=
  match settings with
  | none =>
      match load_settings env none with
      | (.error e, st1) => (.error e, st1)
      | (.ok _, st1) =>
          match st1 with
          | none => (.error "RuntimeError: Failed to load theme settings", st1)
          | some v => update_current_theme_loaded env v theme_name
  | some v => update_current_theme_loaded env v theme_name

/-- State of one `ThemeController`: the cache `_settings` of the loader
together with the fields `current_theme_name` and `current_stylesheet`. -/
structure ControllerState where
  settings : Option PyVal
  current_theme_name : String
  current_stylesheet : String

/-- `ThemeController._load_fallback_theme` (controller.py:144-153); its own
handler is unreachable since plain assignments cannot raise, so the result
is always the `"fallback"` sentinel with an empty stylesheet. -/
def load_fallback_theme (cs : ControllerState) : ControllerState :=
  { cs with current_theme_name := "fallback", current_stylesheet := "" }

/-- `StylesheetGenerator(theme_config).generate_qss()` on an arbitrary
value: the first `theme_config.get` raises `AttributeError` unless the
configuration is a dict. -/
def generate_qss_v (advanced_mode : Bool) (v : PyVal) : Except String String :=
  match v with
  | .dict es => generate_qss advanced_mode es
  | _ => .error "AttributeError: object has no attribute get"

/-- The `try` body of `ThemeController._load_current_theme`
(controller.py:126-139): returns whether the body completed without an
exception, and the controller state after its (possibly partial)
assignments. -/
def load_current_theme_attempt (env : FsEnv) (cs : ControllerState) :
    Bool × ControllerState :=
  match get_current_theme env cs.settings with
  | (.error _, st1) => (false, { cs with settings := st1 })
  | (.ok nm, st1) =>
      let cs1 := { cs with settings := st1, current_theme_name := nm }
      match get_theme_config env cs1.settings nm with
      | (.error _, st2) => (false, { cs1 with settings := st2 })
      | (.ok cfgOpt, st2) =>
          let cs2 := { cs1 with settings := st2 }
          match cfgOpt with
          | some cfg =>
              if pyTruthy cfg then
                match generate_qss_v false cfg with
                | .error _ => (false, cs2)
                | .ok css => (true, { cs2 with current_stylesheet := css })
              else (false, cs2)
          | none => (false, cs2)

/-- `ThemeController._load_current_theme` (controller.py:126-142): any
exception in the body degrades to the fallback theme. -/
def load_current_theme (env : FsEnv) (cs : ControllerState) : ControllerState :=
  match load_current_theme_attempt env cs with
  | (true, cs1) => cs1
  | (false, cs1) => load_fallback_theme cs1

/-- The controller state `ThemeController.__init__` (controller.py:104-124)
starts from before loading the initial theme. -/
def controllerInit : ControllerState :=
  { settings := none, current_theme_name := "", current_stylesheet := "" }

/-- `ThemeController.__init__` (controller.py:104-124). -/
def theme_controller_init (env : FsEnv) : ControllerState :=
  load_current_theme env controllerInit

/-- `ThemeController.set_theme` (controller.py:167-204).  The stylesheet
and theme name are assigned before the selection is persisted; the
enclosing `try` converts every failure into a `false` return. -/
def set_theme (env : FsEnv) (cs : ControllerState) (theme_name : String)
    (save_settings_flag : Bool) : Bool × ControllerState :=
  match get_theme_config env cs.settings theme_name with
  | (.error _, st1) => (false, { cs with settings := st1 })
  | (.ok cfgOpt, st1) =>
      let cs1 := { cs with settings := st1 }
      match cfgOpt with
      | none => (false, cs1)
      | some cfg =>
          if !pyTruthy cfg then (false, cs1)
          else if !validate_theme_config cfg then (false, cs1)
          else
            match generate_qss_v false cfg with
            | .error _ => (false, cs1)
            | .ok css =>
                let cs2 := { cs1 with
                  current_stylesheet := css
                  current_theme_name := theme_name }
                if save_settings_flag then
                  match update_current_theme env cs2.settings theme_name with
                  | (.error _, st2) => (false, { cs2 with settings := st2 })
                  | (.ok _, st2) => (true, { cs2 with settings := st2 })
                else (true, cs2)

/-- Result of one `export_qss` call: the returned flag, the controller
state afterwards, and the file contents written (if any). -/
structure ExportOutcome where
  ok : Bool
  state : ControllerState
  written : Option String

/-- `ThemeController.export_qss` (controller.py:263-299): defaults the
theme to the current one, requires only that the looked-up configuration is
truthy, synthesizes, and writes; every failure returns `false`. -/
def export_qss (env : FsEnv) (cs : ControllerState) (theme_name_arg : Option String) :
    ExportOutcome :=
  let theme_name :=
    match theme_name_arg with
    | none => cs.current_theme_name
    | some n => n
  match get_theme_config env cs.settings theme_name with
  | (.error _, st1) => ⟨false, { cs with settings := st1 }, none⟩
  | (.ok cfgOpt, st1) =>
      let cs1 := { cs with settings := st1 }
      match cfgOpt with
      | none => ⟨false, cs1, none⟩
      | some cfg =>
          if !pyTruthy cfg then ⟨false, cs1, none⟩
          else
            match generate_qss_v false cfg with
            | .error _ => ⟨false, cs1, none⟩
            | .ok qss_content =>
                if env.exportWriteOk then ⟨true, cs1, some qss_content⟩
                else ⟨false, cs1, none⟩

end QtThemeManager

namespace QtThemeManager

/-! Settled claims about the controller. -/

/-- A valid dark theme configuration. -/
def darkThemeCfg : PyVal := .dict
  [("name", .str "dark"), ("display_name", .str "Dark"),
   ("backgroundColor", .str "#1a1a1a"), ("textColor", .str "#ffffff")]

/-- A settings document with two themes, `light` current. -/
def sampleSettings : PyVal := .dict
  [("current_theme", .str "light"),
   ("available_themes", .dict
     [("light", .dict
        [("name", .str "light"), ("display_name", .str "Light"),
         ("backgroundColor", .str "#ffffff"), ("textColor", .str "#000000")]),
      ("dark", darkThemeCfg)])]

/-- An environment where the settings file loads but writing it back fails. -/
def persistFailEnv : FsEnv :=
  { loadResult := .ok (some sampleSettings), saveOk := false, exportWriteOk := true }

/-- A controller that has `light` current with some stylesheet text. -/
def sampleState : ControllerState :=
  { settings := some sampleSettings, current_theme_name := "light",
    current_stylesheet := "old stylesheet" }

/-- C1 (counterexample): when persisting the selection fails, `set_theme`
does return false, but both `current_theme_name` and `current_stylesheet`
have already been switched to the requested theme — the state is not left
as it was. -/
theorem set_theme_persist_failure_counterexample :
    (set_theme persistFailEnv sampleState "dark" true).1 = false
    ∧ (set_theme persistFailEnv sampleState "dark" true).2.current_theme_name = "dark"
    ∧ sampleState.current_theme_name = "light"
    ∧ (set_theme persistFailEnv sampleState "dark" true).2.current_stylesheet =
        (generate_qss_v false darkThemeCfg).toOption.getD ""
    ∧ (set_theme persistFailEnv sampleState "dark" true).2.current_stylesheet ≠
        sampleState.current_stylesheet := by
  refine ⟨by decide, by decide, rfl, rfl, by decide⟩

/-- C1 (amended): every failing `set_theme` call returns false (the model
is total: the enclosing handler converts every exception).  Each failure
before the stylesheet swap — lookup error, theme not found, falsy
configuration, schema-validation failure, synthesis failure — leaves
`current_theme_name` and `current_stylesheet` exactly as before the call
(only the loader cache may have been touched); when the failure is an
error raised while persisting the selection, both fields have already been
updated to the requested theme and its synthesized stylesheet.  The final
conjunct states completeness: every false return is of one of these two
shapes. -/
theorem set_theme_failure_semantics (env : FsEnv) (cs : ControllerState)
    (theme_name : String) (save_flag : Bool) :
    (∀ e st1, get_theme_config env cs.settings theme_name = (.error e, st1) →
        set_theme env cs theme_name save_flag = (false, { cs with settings := st1 }))
    ∧ (∀ st1, get_theme_config env cs.settings theme_name = (.ok none, st1) →
        set_theme env cs theme_name save_flag = (false, { cs with settings := st1 }))
    ∧ (∀ cfg st1,
        get_theme_config env cs.settings theme_name = (.ok (some cfg), st1) →
        pyTruthy cfg = false →
        set_theme env cs theme_name save_flag = (false, { cs with settings := st1 }))
    ∧ (∀ cfg st1,
        get_theme_config env cs.settings theme_name = (.ok (some cfg), st1) →
        pyTruthy cfg = true → validate_theme_config cfg = false →
        set_theme env cs theme_name save_flag = (false, { cs with settings := st1 }))
    ∧ (∀ cfg st1 e,
        get_theme_config env cs.settings theme_name = (.ok (some cfg), st1) →
        pyTruthy cfg = true → validate_theme_config cfg = true →
        generate_qss_v false cfg = .error e →
        set_theme env cs theme_name save_flag = (false, { cs with settings := st1 }))
    ∧ (∀ cfg st1 css e st2,
        get_theme_config env cs.settings theme_name = (.ok (some cfg), st1) →
        pyTruthy cfg = true → validate_theme_config cfg = true →
        generate_qss_v false cfg = .ok css → save_flag = true →
        update_current_theme env st1 theme_name = (.error e, st2) →
        set_theme env cs theme_name save_flag =
          (false, { settings := st2, current_theme_name := theme_name,
                    current_stylesheet := css }))
    ∧ ((set_theme env cs theme_name save_flag).1 = false →
        ((set_theme env cs theme_name save_flag).2.current_theme_name =
            cs.current_theme_name ∧
         (set_theme env cs theme_name save_flag).2.current_stylesheet =
            cs.current_stylesheet) ∨
        (save_flag = true ∧
         (set_theme env cs theme_name save_flag).2.current_theme_name = theme_name ∧
         ∃ cfg st1 css e st2,
           get_theme_config env cs.settings theme_name = (.ok (some cfg), st1) ∧
           pyTruthy cfg = true ∧ validate_theme_config cfg = true ∧
           generate_qss_v false cfg = .ok css ∧
           (set_theme env cs theme_name save_flag).2.current_stylesheet = css ∧
           update_current_theme env st1 theme_name = (.error e, st2))) := by
  refine ⟨?_, ?_, ?_, ?_, ?_, ?_, ?_⟩
  · intro e st1 hg
    simp [set_theme, hg]
  · intro st1 hg
    simp [set_theme, hg]
  · intro cfg st1 hg ht
    simp [set_theme, hg, ht]
  · intro cfg st1 hg ht hv
    simp [set_theme, hg, ht, hv]
  · intro cfg st1 e hg ht hv hgen
    simp [set_theme, hg, ht, hv, hgen]
  · intro cfg st1 css e st2 hg ht hv hgen hsf hu
    subst hsf
    simp [set_theme, hg, ht, hv, hgen, hu]
  · intro hfail
    cases hg : get_theme_config env cs.settings theme_name with
    | mk r st1 =>
        cases r with
        | error e => left; simp [set_theme, hg]
        | ok cfgOpt =>
            cases cfgOpt with
            | none => left; simp [set_theme, hg]
            | some cfg =>
                by_cases ht : pyTruthy cfg = true
                · by_cases hv : validate_theme_config cfg = true
                  · cases hgen : generate_qss_v false cfg with
                    | error e => left; simp [set_theme, hg, ht, hv, hgen]
                    | ok css =>
                        cases save_flag with
                        | false =>
                            simp [set_theme, hg, ht, hv, hgen] at hfail
                        | true =>
                            cases hu : update_current_theme env st1 theme_name with
                            | mk ur st2 =>
                                cases ur with
                                | error e =>
                                    right
                                    have hname :
                                        (set_theme env cs theme_name true).2.current_theme_name
                                          = theme_name := by
                                      simp [set_theme, hg, ht, hv, hgen, hu]
                                    have hstyle :
                                        (set_theme env cs theme_name true).2.current_stylesheet
                                          = css := by
                                      simp [set_theme, hg, ht, hv, hgen, hu]
                                    exact ⟨rfl, hname, cfg, st1, css, e, st2, rfl, ht,
                                      hv, hgen, hstyle, hu⟩
                                | ok u =>
                                    simp [set_theme, hg, ht, hv, hgen, hu] at hfail
                  · left; simp [set_theme, hg, ht, hv]
                · left; simp [set_theme, hg, ht]

/-- Closed witness: setting a nonexistent theme returns false and leaves
the controller fields unchanged. -/
theorem set_theme_nonexistent_witness :
    set_theme persistFailEnv sampleState "nonexistent" true =
      (false, { sampleState with settings := some sampleSettings }) :=
  (set_theme_failure_semantics persistFailEnv sampleState "nonexistent" true).2.1
    (some sampleSettings) rfl

/-- C9: controller construction is modelled as a total function; whenever
the theme-loading body fails (missing file, malformed document, missing or
invalid theme, synthesis error), the constructed controller is in the
fallback state: `current_theme_name = "fallback"` and an empty
`current_stylesheet`. -/
theorem controller_init_usable (env : FsEnv) :
    (load_current_theme_attempt env controllerInit).1 = true
    ∨ ((theme_controller_init env).current_theme_name = "fallback"
       ∧ (theme_controller_init env).current_stylesheet = "") := by
  rcases hA : load_current_theme_attempt env controllerInit with ⟨ok, cs1⟩
  cases ok with
  | true => exact Or.inl rfl
  | false =>
      right
      have h2 : theme_controller_init env = load_fallback_theme cs1 := by
        unfold theme_controller_init load_current_theme
        rw [hA]
      rw [h2]
      exact ⟨rfl, rfl⟩

/-- A present but schema-invalid theme configuration (missing `name`,
`display_name` and `textColor`). -/
def brokenThemeCfg : PyVal := .dict [("backgroundColor", .str "#123456")]

/-- Settings carrying only the schema-invalid theme. -/
def brokenSettings : PyVal := .dict
  [("available_themes", .dict [("broken", brokenThemeCfg)])]

/-- An environment whose settings file holds the broken catalog and whose
file writes succeed. -/
def brokenEnv : FsEnv :=
  { loadResult := .ok (some brokenSettings), saveOk := true, exportWriteOk := true }

/-- A controller over the broken catalog. -/
def brokenState : ControllerState :=
  { settings := some brokenSettings, current_theme_name := "light",
    current_stylesheet := "" }

/-- C3 (counterexample): exporting a schema-invalid theme succeeds and
writes the synthesized stylesheet — `export_qss` never consults
`validate_theme_config`. -/
theorem export_without_validation_counterexample :
    validate_theme_config brokenThemeCfg = false
    ∧ (export_qss brokenEnv brokenState (some "broken")).ok = true
    ∧ (export_qss brokenEnv brokenState (some "broken")).written.isSome = true := by
  refine ⟨by decide, by decide, by decide⟩

/-- C3 (amended): the export path performs no schema-validation gate: for
every theme whose looked-up configuration is truthy, whenever synthesis and
the file write succeed, `export_qss` reports success and writes exactly the
synthesized stylesheet — whether or not the configuration passes
`validate_theme_config`. -/
theorem export_qss_without_validation (env : FsEnv) (cs : ControllerState)
    (nm : String) (st1 : Option PyVal) (cfg : PyVal) (css : String)
    (hlook : get_theme_config env cs.settings nm = (.ok (some cfg), st1))
    (ht : pyTruthy cfg = true)
    (hgen : generate_qss_v false cfg = .ok css)
    (hw : env.exportWriteOk = true) :
    export_qss env cs (some nm) =
      ⟨true, { cs with settings := st1 }, some css⟩ := by
  simp [export_qss, hlook, ht, hgen, hw]

/-- Closed witness: the schema-invalid theme is exported with the
synthesized content. -/
theorem export_qss_without_validation_witness :
    export_qss brokenEnv brokenState (some "broken") =
      ⟨true, { brokenState with settings := some brokenSettings },
        some ((generate_qss_v false brokenThemeCfg).toOption.getD "")⟩ :=
  export_qss_without_validation brokenEnv brokenState "broken"
    (some brokenSettings) brokenThemeCfg _ rfl (by decide) rfl rfl

end QtThemeManager
